import Mathlib

/-!
Shallow embedding of `src/case_study_generator.py`, a single-file Streamlit
application that gathers campaign data through a search provider, extracts and
validates metrics through a completion service, recommends case-study styles,
generates and refines a case-study document, and exports it as Markdown / PDF.

Modelling conventions:
* `st.session_state` is the `SessionState` record; one top-to-bottom script
  execution is a `RunOut`-producing function of the widget inputs.
* External collaborators (the Serper search endpoint, the Gemini completion
  model, the `markdown2` renderer, the `xhtml2pdf` converter and the current
  clock) are oracles bundled in `Env`.  A raised Python exception from an
  oracle is `Except.error`; an uncaught exception aborts the script run and is
  recorded in `RunOut.exc` (this includes Streamlit's `RerunException`).
* Outward-visible actions (HTTP calls, completion calls, `st.error`/`st.info`/
  `st.success` banners, download buttons, the PDF conversion) are collected in
  order as `Effect`s.  Pure page rendering (`st.markdown`, progress bars,
  expanders, dataframe previews) carries no information for the claims and is
  not traced.
* Python string primitives that do not reduce in the Lean kernel are given
  character-list based equivalents (`pyStrip` for `str.strip`, `pyLower` for
  `str.lower`, `strIn` for the `in` substring test, `splitNl` for splitting
  at newlines).
-/

namespace CSG

/-- Python `str.strip()`: remove leading and trailing whitespace. -/
def pyStrip (s : String) : String :=
  ⟨(((s.data.dropWhile Char.isWhitespace).reverse.dropWhile Char.isWhitespace).reverse)⟩

/-- Python `str.lower()` (the source only ever lowercases ASCII option and
category names). -/
def pyLower (s : String) : String :=
  ⟨s.data.map Char.toLower⟩

/-- Helper for the Python substring test: is `n` a contiguous sublist of `h`? -/
def subList (n : List Char) : List Char → Bool
  | [] => n.isEmpty
  | c :: t => n.isPrefixOf (c :: t) || subList n t

/-- Python `needle in hay` on strings. -/
def strIn (needle hay : String) : Bool :=
  subList needle.data hay.data

/-- Split a character list at newline characters (Python line structure of a
multi-line reply; the `re.MULTILINE` anchor `^` matches at each of these line
starts). -/
def splitNl : List Char → List (List Char)
  | [] => [[]]
  | c :: rest =>
    if c = '\n' then [] :: splitNl rest
    else
      match splitNl rest with
      | [] => [[c]]
      | l :: ls => (c :: l) :: ls

/-- One entry of the Serper `organic` (or `news`) result array; absent JSON
fields are the defaulted empty strings of `result.get(key, '')`. -/
structure OrganicResult where
  title : String
  snippet : String
  link : String
  date : String
deriving DecidableEq

/-- Parsed JSON body of a successful Serper response (`data.get('organic', [])`
and `data.get('news', [])`). -/
structure SearchData where
  organic : List OrganicResult
  news : List OrganicResult
deriving DecidableEq

/-- Value of the `results` dict returned by `fetch_campaign_metrics`: either
the empty dict `{}` produced by the exception handler, or the populated
`{'organic': …, 'news': …, 'snippets': …}` dict. -/
inductive FetchResult
  | err
  | ok (organic news : List OrganicResult) (snippets : List String)
deriving DecidableEq

/-- Value of `st.session_state.detailed_metrics`: the initial empty dict, or
the two-key dict `{'raw_metrics': …, 'validation': …}` written by the analysis
step.  `raw_metrics` is an insertion-ordered category-to-findings map. -/
inductive MetricsState
  | empty
  | filled (raw_metrics : List (String × List String)) (validation : String)
deriving DecidableEq

/-- Python `detailed_metrics.get('validation', d)`. -/
def MetricsState.validationD (m : MetricsState) (d : String) : String :=
  match m with
  | .empty => d
  | .filled _ v => v

/-- One element of `st.session_state.case_library` (the dict appended at
generation time; `caseText` is the `'case'` key). -/
structure CaseEntry where
  title : String
  style : String
  caseText : String
  metrics : MetricsState
  timestamp : String
deriving DecidableEq

/-- The keys of `st.session_state` initialised at the top of the script (the
`'metrics'` key is initialised but never read or written afterwards and is
omitted). -/
structure SessionState where
  recommendations : String
  styles : List String
  selected_style : Option String
  case_study : String
  case_library : List CaseEntry
  web_context : String
  detailed_metrics : MetricsState
  campaign_timeline : String
deriving DecidableEq

/-- The initial session state (lines 26-38 of the source). -/
def initialState : SessionState :=
  { recommendations := ""
    styles := []
    selected_style := none
    case_study := ""
    case_library := []
    web_context := ""
    detailed_metrics := .empty
    campaign_timeline := "" }

/-- Outward-visible actions of one script run, in execution order. -/
inductive Effect
  | searchCall (query : String) (num : Nat)
  | llmCall (prompt : String)
  | errorMsg (msg : String)
  | infoMsg (msg : String)
  | successMsg (msg : String)
  | download (label data fname mime : String)
  | pisaCall (html : String)
  | csvDownload (rows : List (String × String × String × String))
deriving DecidableEq

/-- Does this effect display an `st.error` banner? -/
def Effect.isErrMsg : Effect → Bool
  | .errorMsg _ => true
  | _ => false

/-- Result of (part of) one top-to-bottom script execution: the session state
after it, the traced effects, and the uncaught exception (if any) that ended
the run early. -/
structure RunOut where
  state : SessionState
  effects : List Effect
  exc : Option String
deriving DecidableEq

/-- External collaborators. `search` is one `requests.post` to the Serper API
together with `res.json()` (any raised exception is `Except.error`); `llm` is
`model.generate_content(prompt).text` (idem); `pisa` is
`pisa.CreatePDF(html, dest=buf)` returning the status `.err` flag and the
bytes written into `buf`; `md2html` is `markdown2.markdown`; `now` is
`datetime.now().strftime('%Y-%m-%d %H:%M')` at this run. -/
structure Env where
  search : String → Nat → Except String SearchData
  llm : String → Except String String
  pisa : String → Bool × String
  md2html : String → String
  now : String

/-- The widget values of the input form (lines 128-147). -/
structure FormInput where
  project_title : String
  client_name : String
  campaign_name : String
  industry : String
  campaign_duration : String
  brief : String
  achievements : String
  target_metrics : List String
  advanced_search : Bool
  go : Bool

/-- All widget values of one script run (form plus the buttons and inputs of
the later sections). -/
structure UiInput where
  form : FormInput
  radioIndex : Nat
  genClicked : Bool
  feedback : String
  refineClicked : Bool
  pdfClicked : Bool
  exportClicked : Bool

/-- Sequential composition of script sections: an uncaught exception in an
earlier section prevents the later ones from executing. -/
def andThen (r : RunOut) (f : SessionState → RunOut) : RunOut :=
  match r.exc with
  | some _ => r
  | none =>
    let r2 := f r.state
    ⟨r2.state, r.effects ++ r2.effects, r2.exc⟩

/-- Lines 41-70, `fetch_campaign_metrics`: one search call; on success the
populated result dict plus the newline-joined snippets of the first five
organic results; on any raised exception an `st.error` banner and `({}, '')`. -/
def fetch_campaign_metrics (search : String → Nat → Except String SearchData)
    (query : String) (num_results : Nat := 10) : FetchResult × String × List Effect :=
  match search query num_results with
  | .error e =>
    (.err, "", [.searchCall query num_results, .errorMsg ("Search error: " ++ e)])
  | .ok data =>
    let snippets := (data.organic.take 5).map (fun r => r.snippet)
    (.ok data.organic data.news snippets,
     String.intercalate "\n" snippets,
     [.searchCall query num_results])

/-- Lines 74-89, the `extraction_prompt` f-string. -/
def extraction_prompt (text metric_type : String) : String :=
  let t2000 := text.take 2000
  s!"
    Extract specific numeric metrics from this text related to {metric_type}.

    Text: {t2000}

    Look for:
    - Percentage increases/decreases (e.g., \"20% increase\", \"15% growth\")
    - Absolute numbers with context (e.g., \"sales rose to $2.5 million\", \"gained 1.2 million users\")
    - Before/after comparisons
    - Time periods and benchmarks

    Return ONLY the most relevant numeric findings in this format:
    METRIC: [number][unit] - [context/timeframe]

    If no specific metrics found, return: \"No specific metrics found\"
    "

/-- Lines 72-95, `extract_numeric_metrics`: ask the completion service; a
raised exception is replaced by the placeholder string. -/
def extract_numeric_metrics (llm : String → Except String String)
    (text metric_type : String) : String × List Effect :=
  let p := extraction_prompt text metric_type
  match llm p with
  | .ok r => (pyStrip r, [.llmCall p])
  | .error _ => ("No specific metrics found", [.llmCall p])

/-- Lines 99-119, the `validation_prompt` f-string. -/
def validation_prompt (client_name campaign_name metrics_data : String) : String :=
  s!"
    You are a data analyst. Review these extracted metrics for {client_name}\x27s \"{campaign_name}\" campaign:

    {metrics_data}

    For each metric:
    1. Assess if it\x27s realistic and credible
    2. Provide industry context
    3. Flag any suspicious or unverifiable claims
    4. Suggest what additional metrics would be valuable

    Format response as:
    VALIDATED METRICS:
    [List credible metrics with context]

    CREDIBILITY ASSESSMENT:
    [Brief assessment of data reliability]

    MISSING METRICS:
    [Suggest additional KPIs to search for]
    "

/-- Lines 97-125, `validate_and_enrich_metrics`: ask the completion service; a
raised exception is replaced by the placeholder string. -/
def validate_and_enrich_metrics (llm : String → Except String String)
    (client_name campaign_name metrics_data : String) : String × List Effect :=
  let p := validation_prompt client_name campaign_name metrics_data
  match llm p with
  | .ok r => (pyStrip r, [.llmCall p])
  | .error _ => ("Unable to validate metrics", [.llmCall p])

/-- Lines 159-163, the three general `context_queries`. -/
def context_queries (c n : String) : List String :=
  [ s!"\"{c}\" \"{n}\" campaign results case study",
    s!"\"{c}\" \"{n}\" advertising campaign impact",
    s!"\"{c}\" \"{n}\" marketing campaign performance metrics" ]

/-- Lines 165-169: fetch every context query, keep the non-empty snippet
texts (in order) for `st.session_state.web_context`. -/
def contextLoop (search : String → Nat → Except String SearchData) :
    List String → List String × List Effect
  | [] => ([], [])
  | q :: qs =>
    let f := fetch_campaign_metrics search q
    let rest := contextLoop search qs
    ((if (f.2.1).isEmpty then rest.1 else f.2.1 :: rest.1), f.2.2 ++ rest.2)

/-- Lines 179-205, the `metric_search_templates` dict (insertion order). -/
def metric_search_templates (c n : String) : List (String × List String) :=
  [ ("Sales Impact",
      [ s!"\"{c}\" \"{n}\" sales increase revenue growth",
        s!"\"{c}\" \"{n}\" sales performance results",
        s!"\"{c}\" sales boost after \"{n}\" campaign" ]),
    ("Market Share",
      [ s!"\"{c}\" \"{n}\" market share gain",
        s!"\"{c}\" market position after \"{n}\"",
        s!"\"{c}\" competitive advantage \"{n}\"" ]),
    ("Brand Awareness",
      [ s!"\"{c}\" \"{n}\" brand awareness lift study",
        s!"\"{c}\" \"{n}\" brand recognition increase",
        s!"\"{c}\" brand metrics \"{n}\" campaign" ]),
    ("Customer Acquisition",
      [ s!"\"{c}\" \"{n}\" new customers acquired",
        s!"\"{c}\" \"{n}\" customer growth rate",
        s!"\"{c}\" user acquisition \"{n}\"" ]),
    ("Digital Performance",
      [ s!"\"{c}\" \"{n}\" website traffic increase",
        s!"\"{c}\" \"{n}\" online engagement metrics",
        s!"\"{c}\" \"{n}\" conversion rate improvement" ]) ]

/-- Line 208, the category filter:
`not target_metrics or any(tm.lower() in metric_category.lower() for tm in target_metrics)`. -/
def metricCategoryEnabled (target_metrics : List String) (category : String) : Bool :=
  target_metrics.isEmpty
    || target_metrics.any (fun tm => strIn (pyLower tm) (pyLower category))

/-- Lines 209-216, the inner per-category query loop: fetch eight results per
query; when the snippet text is non-empty, run the extraction and keep its
result unless it contains the placeholder. -/
def categoryLoop (env : Env) (category : String) :
    List String → List String × List Effect
  | [] => ([], [])
  | q :: qs =>
    let f := fetch_campaign_metrics env.search q 8
    let rest := categoryLoop env category qs
    if (f.2.1).isEmpty then (rest.1, f.2.2 ++ rest.2)
    else
      let ex := extract_numeric_metrics env.llm f.2.1 category
      if strIn "No specific metrics found" ex.1 then
        (rest.1, f.2.2 ++ ex.2 ++ rest.2)
      else
        (ex.1 :: rest.1, f.2.2 ++ ex.2 ++ rest.2)

/-- Lines 207-219, the outer loop over `metric_search_templates`: a category
contributes a `detailed_metrics` entry only when enabled and when its loop
collected at least one finding. -/
def metricStageList (env : Env) (target_metrics : List String) :
    List (String × List String) → List (String × List String) × List Effect
  | [] => ([], [])
  | (category, qs) :: rest =>
    let r := metricStageList env target_metrics rest
    if metricCategoryEnabled target_metrics category then
      let cd := categoryLoop env category qs
      ((if (cd.1).isEmpty then r.1 else (category, cd.1) :: r.1), cd.2 ++ r.2)
    else r

/-- The whole specific-metric search stage (step 2 of the analysis). -/
def metricStage (env : Env) (target_metrics : List String) (c n : String) :
    List (String × List String) × List Effect :=
  metricStageList env target_metrics (metric_search_templates c n)

/-- Lines 226-228, `metrics_summary` accumulated over the category map. -/
def metricsSummary (dm : List (String × List String)) : String :=
  dm.foldl
    (fun acc cd => acc ++ "\n" ++ cd.1 ++ ":\n" ++ String.intercalate "\n" cd.2 ++ "\n")
    ""

/-- Line 240, the `timeline_query` f-string. -/
def timeline_query (c n d : String) : String :=
  s!"\"{c}\" \"{n}\" campaign timeline launch date duration {d}"

/-- Line 271, the truncated timeline shown through `st.info`. -/
def timelineDisplay (t : String) : String :=
  if t.length > 500 then t.take 500 ++ "..." else t

/-- Lines 276-304, the style-recommendation prompt f-string. -/
def recommendation_prompt (i : FormInput) (validation web1000 : String) : String :=
  s!"
    You are a brand strategist analyzing a successful campaign. Based on the comprehensive data below, recommend 3 case study formats that best showcase the quantifiable impact.

    Project: {i.project_title}
    Client: {i.client_name}
    Campaign: {i.campaign_name}
    Industry: {i.industry}
    Duration: {i.campaign_duration}
    Brief: {i.brief}
    Achievements: {i.achievements}

    PERFORMANCE DATA:
    {validation}

    CAMPAIGN CONTEXT:
    {web1000}

    Recommend case study formats that:
    1. Highlight the most impressive quantifiable results
    2. Provide proper context and benchmarks
    3. Tell a compelling data-driven story

    Format your response as:
    1. [Style Name] - Focus: [Key strength]
    2. [Style Name] - Focus: [Key strength]
    3. [Style Name] - Focus: [Key strength]

    Then provide \"Recommended Data Visualizations:\" with specific chart/graph suggestions.
    "

/-!
Model of line 308, `re.findall(r'^\s*\d+\.\s*(.+?)\s*-', rec, flags=re.MULTILINE)`.
With the MULTILINE flag a match can only start at a line start (the text after
a previous match on the same line contains no further line start), so matching
is modelled line by line; `.` never crosses a newline.  Within one line the
pattern is matched with the regex engine's backtracking order: the anchored
`\s*` and `\d+` runs are maximal (their characters cannot satisfy the
following literal), and `(.+?)\s*-` captures the shortest non-empty prefix
whose remainder, after greedily skipping whitespace, starts with `-`.
-/

/-- Capture of `(.+?)\s*-`: shortest non-empty prefix of the remaining line
such that the rest, after dropping whitespace, starts with a dash. -/
def capAux (acc : List Char) : List Char → Option (List Char)
  | [] => none
  | c :: rest =>
    if (rest.dropWhile Char.isWhitespace).head? = some '-' then some (acc ++ [c])
    else capAux (acc ++ [c]) rest

/-- Backtracking over the greedy `\s*` before the capture group: try the
longest whitespace offset first, down to zero. -/
def capFrom (t : List Char) : Nat → Option (List Char)
  | 0 => capAux [] t
  | k + 1 =>
    match capAux [] (t.drop (k + 1)) with
    | some r => some r
    | none => capFrom t k

/-- Match `^\s*\d+\.\s*(.+?)\s*-` against one line, returning the capture. -/
def matchStyleLine (line : List Char) : Option String :=
  let r1 := line.dropWhile Char.isWhitespace
  let ds := r1.takeWhile Char.isDigit
  if ds.isEmpty then none
  else
    match r1.drop ds.length with
    | '.' :: r3 => (capFrom r3 ((r3.takeWhile Char.isWhitespace).length)).map (⟨·⟩)
    | _ => none

/-- Line 308, `styles_found`: all captures over the lines of the reply. -/
def styles_found (recText : String) : List String :=
  (splitNl recText.data).filterMap matchStyleLine

/-- Line 309: the session style list — at most the first three parsed styles
plus the synthetic default option. -/
def assignedStyles (recText : String) : List String :=
  (styles_found recText).take 3 ++ ["Comprehensive Data-Driven Report"]

/-- Lines 150-312, the analysis step (step 1): runs only when the form was
submitted with non-empty client and campaign names; otherwise nothing at all
happens (there is no `else` branch and no validation banner in the source). -/
def analysisBlock (env : Env) (i : FormInput) (s : SessionState) : RunOut :=
  if i.go && !i.client_name.isEmpty && !i.campaign_name.isEmpty then
    let ctx := contextLoop env.search (context_queries i.client_name i.campaign_name)
    let s1 := { s with web_context := String.intercalate "\n\n" ctx.1 }
    let ms := metricStage env i.target_metrics i.client_name i.campaign_name
    let s2e :=
      if (ms.1).isEmpty then (s1, ([] : List Effect))
      else
        let v := validate_and_enrich_metrics env.llm i.client_name i.campaign_name
                   (metricsSummary ms.1)
        ({ s1 with detailed_metrics := .filled ms.1 v.1 }, v.2)
    let tl := fetch_campaign_metrics env.search
                (timeline_query i.client_name i.campaign_name i.campaign_duration)
    let s3 := { s2e.1 with campaign_timeline := tl.2.1 }
    let banners :=
      [Effect.successMsg "✅ Campaign Impact Analysis Complete"]
        ++ (if (s3.campaign_timeline).isEmpty then []
            else [Effect.infoMsg (timelineDisplay s3.campaign_timeline)])
    let p := recommendation_prompt i
               (s3.detailed_metrics.validationD "Limited metrics available")
               (s3.web_context.take 1000)
    let effs :=
      [Effect.infoMsg "🔎 Conducting comprehensive campaign impact analysis..."]
        ++ ctx.2 ++ ms.2 ++ s2e.2 ++ tl.2.2 ++ banners ++ [Effect.llmCall p]
    match env.llm p with
    | .error err => ⟨s3, effs, some err⟩
    | .ok r =>
      let rt := pyStrip r
      ⟨{ s3 with recommendations := rt, styles := assignedStyles rt }, effs, none⟩
  else ⟨s, [], none⟩

/-- Model of `st.radio`: the user picks an option by index; an out-of-range
index yields the default (first) option, and an empty option list yields
`None`. -/
def radioSelect (options : List String) (idx : Nat) : Option String :=
  match options.get? idx with
  | some x => some x
  | none => options.head?

/-- Lines 315-318: when recommendations exist, display them and store the
radio selection. -/
def styleSelectBlock (radioIndex : Nat) (s : SessionState) : RunOut :=
  if s.recommendations.isEmpty then ⟨s, [], none⟩
  else ⟨{ s with selected_style := radioSelect s.styles radioIndex }, [], none⟩

/-- Lines 327-334, the `metrics_context` string. -/
def metricsContext (m : MetricsState) : String :=
  match m with
  | .empty => ""
  | .filled raw v =>
    raw.foldl
      (fun acc cd => acc ++ "\n" ++ cd.1 ++ ":\n" ++ String.intercalate "\n" cd.2 ++ "\n")
      s!"
VALIDATED PERFORMANCE METRICS:
{v}

RAW METRIC DATA:
"

/-- Lines 336-365, the `enhanced_prompt` f-string. -/
def enhanced_prompt (i : FormInput) (style metrics_context timeline web_context : String) :
    String :=
  let web1500 := web_context.take 1500
  s!"
        Create a comprehensive, data-driven case study in the \"{style}\" format.

        PROJECT DETAILS:
        Title: {i.project_title}
        Client: {i.client_name}
        Campaign: {i.campaign_name}
        Industry: {i.industry}
        Duration: {i.campaign_duration}
        Brief: {i.brief}
        Achievements: {i.achievements}

        {metrics_context}

        CAMPAIGN CONTEXT & TIMELINE:
        {timeline}

        ADDITIONAL CONTEXT:
        {web1500}

        REQUIREMENTS:
        1. Lead with the most impressive quantifiable results
        2. Provide proper context and industry benchmarks where possible
        3. Include specific numbers, percentages, and timeframes
        4. Structure the narrative around measurable impact
        5. Flag any metrics that need verification
        6. Include recommendations for future campaigns based on learnings

        Create a professional case study that demonstrates clear ROI and business impact.
        "

/-- Lines 320-375, the generation step: requires a truthy selected style and
the button click; the completion call has no exception handler, so a raised
exception propagates before any session mutation; on success the new document
is stored and one library entry is appended. -/
def genBlock (env : Env) (i : FormInput) (genClicked : Bool) (s : SessionState) : RunOut :=
  match s.selected_style with
  | none => ⟨s, [], none⟩
  | some style =>
    if !style.isEmpty && genClicked then
      let p := enhanced_prompt i style (metricsContext s.detailed_metrics)
                 s.campaign_timeline s.web_context
      match env.llm p with
      | .error e => ⟨s, [.llmCall p], some e⟩
      | .ok t =>
        let output := pyStrip t
        ⟨{ s with
            case_study := output,
            case_library := s.case_library
              ++ [⟨i.project_title, style, output, s.detailed_metrics, env.now⟩] },
          [.llmCall p], none⟩
    else ⟨s, [], none⟩

/-- Lines 389-403, the `revision_prompt` f-string. -/
def revision_prompt (feedback case_study validation : String) : String :=
  s!"
                Improve this case study based on the feedback: {feedback}

                Focus on:
                - Adding more specific metrics if requested
                - Improving data presentation
                - Enhancing narrative flow
                - Strengthening business impact statements

                Original Case Study:
                {case_study}

                Available Metrics Data:
                {validation}
                "

/-- Markdown download filename, line 413 (`f"{project_title}_case_study.md"`). -/
def mdFileName (project_title : String) : String :=
  project_title ++ "_case_study.md"

/-- PDF download filename, line 452 (`f"{project_title}_case_study.pdf"`). -/
def pdfFileName (project_title : String) : String :=
  project_title ++ "_case_study.pdf"

/-- Lines 419-442, the `html_content` f-string of `create_enhanced_pdf`. -/
def pdfHtml (md2html : String → String) (text : String) (metrics_data : MetricsState) :
    String :=
  let bodyHtml := md2html text
  let v300 := (metrics_data.validationD "See full report for detailed metrics").take 300
  s!"
            <html>
            <head>
                <style>
                    body \x7b font-family: Arial, sans-serif; margin: 40px; \x7d
                    .header \x7b text-align: center; margin-bottom: 30px; \x7d
                    .metrics-box \x7b background-color: #f0f8ff; padding: 15px; margin: 20px 0; border-left: 4px solid #0066cc; \x7d
                    .metric-item \x7b margin: 10px 0; \x7d
                    h1, h2, h3 \x7b color: #0066cc; \x7d
                </style>
            </head>
            <body>
                <div class=\"header\">
                    <img src=\x27logo.png\x27 width=\x27120\x27/>
                    <h1>Campaign Impact Case Study</h1>
                </div>
                {bodyHtml}
                <div class=\"metrics-box\">
                    <h3>Validated Metrics Summary</h3>
                    <p>{v300}...</p>
                </div>
            </body>
            </html>
            "

/-- Lines 418-445, `create_enhanced_pdf`: render the HTML and return the
buffer contents.  The `pisaStatus` returned by `pisa.CreatePDF` (its `.err`
flag, first component of the oracle) is never inspected. -/
def create_enhanced_pdf (env : Env) (text : String) (metrics_data : MetricsState) :
    String × List Effect :=
  let html := pdfHtml env.md2html text metrics_data
  ((env.pisa html).2, [.pisaCall html])

/-- Lines 378-454, the display / refine / export section.  The refine path
ends in `st.rerun()`, which raises and so prevents the download widgets of
this run; the export column always offers the Markdown download and, on the
PDF button click, converts and offers the PDF regardless of the conversion
status. -/
def displayBlock (env : Env) (i : FormInput) (feedback : String)
    (refineClicked pdfClicked : Bool) (s : SessionState) : RunOut :=
  if s.case_study.isEmpty then ⟨s, [], none⟩
  else
    let e0 := [Effect.successMsg "✅ Data-Driven Case Study Generated"]
    if refineClicked && !feedback.isEmpty then
      let rp := revision_prompt feedback s.case_study (s.detailed_metrics.validationD "")
      match env.llm rp with
      | .error err => ⟨s, e0 ++ [.llmCall rp], some err⟩
      | .ok t =>
        ⟨{ s with case_study := pyStrip t }, e0 ++ [.llmCall rp], some "RerunException"⟩
    else
      let mdEff := Effect.download "📝 Download Markdown" s.case_study
                     (mdFileName i.project_title) "text/markdown"
      if pdfClicked then
        let pdf := create_enhanced_pdf env s.case_study s.detailed_metrics
        ⟨s, e0 ++ [mdEff] ++ pdf.2
              ++ [Effect.download "💾 Download PDF Report" pdf.1
                    (pdfFileName i.project_title) "application/pdf"],
          none⟩
      else ⟨s, e0 ++ [mdEff], none⟩

/-- Lines 456-465, the read-only library listing (newest first); entries with
metrics show a truncated validation banner. -/
def libraryBlock (s : SessionState) : RunOut :=
  if s.case_library.isEmpty then ⟨s, [], none⟩
  else
    ⟨s,
      s.case_library.reverse.filterMap (fun it =>
        if it.metrics != MetricsState.empty then
          some (Effect.infoMsg
            ((it.metrics.validationD "No metrics validation available").take 200 ++ "..."))
        else none),
      none⟩

/-- Lines 472-480, the per-case export rows (only cases with metrics). -/
def exportRows (lib : List CaseEntry) : List (String × String × String × String) :=
  lib.filterMap (fun c =>
    if c.metrics != MetricsState.empty then
      some (c.title, c.style, c.timestamp, (c.metrics.validationD "").take 100 ++ "...")
    else none)

/-- Lines 468-490, the metrics-data export section: read-only; a CSV download
is offered when the button is clicked and at least one case carries metrics. -/
def exportAllBlock (exportClicked : Bool) (s : SessionState) : RunOut :=
  if s.case_library.isEmpty then ⟨s, [], none⟩
  else if exportClicked then
    let rows := exportRows s.case_library
    if rows.isEmpty then ⟨s, [], none⟩
    else ⟨s, [.csvDownload rows], none⟩
  else ⟨s, [], none⟩

/-- One full top-to-bottom execution of the script body (after session-state
initialisation), in source order. -/
def scriptRun (env : Env) (u : UiInput) (s : SessionState) : RunOut :=
  andThen (andThen (andThen (andThen (andThen
    (analysisBlock env u.form s)
    (styleSelectBlock u.radioIndex))
    (genBlock env u.form u.genClicked))
    (displayBlock env u.form u.feedback u.refineClicked u.pdfClicked))
    libraryBlock)
    (exportAllBlock u.exportClicked)

/-! Concrete oracle and widget fixtures used to instantiate the theorems. -/

/-- A deterministic stub completion service. -/
def llmOk : String → Except String String := fun _ => .ok "OK TEXT"

/-- An environment in which every collaborator succeeds. -/
def envOk : Env :=
  { search := fun _ _ => .ok ⟨[⟨"Title", "A snippet.", "http://x", "2024"⟩], []⟩
    llm := llmOk
    pisa := fun _ => (false, "PDFBYTES")
    md2html := fun h => h
    now := "2024-05-01 10:00" }

/-- Same completion stub as `envOk` but a different clock, search provider and
renderer. -/
def envOk2 : Env :=
  { search := fun _ _ => .error "offline"
    llm := llmOk
    pisa := fun _ => (true, "X")
    md2html := fun _ => ""
    now := "1999-12-31 23:59" }

/-- An environment in which search, completion and PDF conversion all fail. -/
def envFail : Env :=
  { search := fun _ _ => .error "timeout"
    llm := fun _ => .error "llm down"
    pisa := fun _ => (true, "PARTIAL")
    md2html := fun h => h
    now := "2024-05-01 10:00" }

/-- A fully filled submitted form. -/
def formFull : FormInput :=
  { project_title := "My Project"
    client_name := "Acme"
    campaign_name := "Launch"
    industry := "Retail"
    campaign_duration := "Q1 2024"
    brief := "Two lines of brief."
    achievements := "Key outcomes."
    target_metrics := ["Market Share"]
    advanced_search := false
    go := true }

/-- The same form submitted with the required client field left empty. -/
def formC2 : FormInput := { formFull with client_name := "" }

/-- A session in which a style was selected and a document generated. -/
def stateSel : SessionState :=
  { initialState with selected_style := some "Narrative", case_study := "Old document" }

/-- A session holding a generated document, nothing else. -/
def stateDoc : SessionState := { initialState with case_study := "# Campaign Results" }

/-- A run in which no widget is activated. -/
def uiNothing : UiInput :=
  { form := { formFull with go := false }
    radioIndex := 0
    genClicked := false
    feedback := ""
    refineClicked := false
    pdfClicked := false
    exportClicked := false }

/-! Helper lemmas shared by several claims. -/

/-- Every call of `fetch_campaign_metrics` traces its search call. -/
theorem searchCall_mem_fetch (search : String → Nat → Except String SearchData)
    (q : String) (n : Nat) :
    Effect.searchCall q n ∈ (fetch_campaign_metrics search q n).2.2 := by
  unfold fetch_campaign_metrics
  cases search q n <;> simp

/-- A category loop with at least one query traces the search for its first
query. -/
theorem searchCall_mem_categoryLoop (env : Env) (category q : String) (qs : List String) :
    Effect.searchCall q 8 ∈ (categoryLoop env category (q :: qs)).2 := by
  have h := searchCall_mem_fetch env.search q 8
  unfold categoryLoop
  dsimp only
  split
  · simp [h]
  · split <;> simp [h]

/-- An enabled category that appears in the template list with a non-empty
query list contributes its first search call to the stage's effects. -/
theorem searchCall_mem_metricStageList (env : Env) (tms : List String)
    (category q : String) (qs : List String) :
    ∀ L : List (String × List String), (category, q :: qs) ∈ L →
      metricCategoryEnabled tms category = true →
      Effect.searchCall q 8 ∈ (metricStageList env tms L).2 := by
  intro L
  induction L with
  | nil => intro h; simp at h
  | cons hd rest ih =>
    intro hmem hon
    rcases List.mem_cons.mp hmem with heq | htail
    · subst heq
      unfold metricStageList
      rw [hon]
      simp [searchCall_mem_categoryLoop env category q qs]
    · unfold metricStageList
      obtain ⟨c0, qs0⟩ := hd
      split
      · simp [ih htail hon]
      · exact ih htail hon

/-- Every section except generation leaves `case_library` untouched;
generation appends at most one entry (these feed the library invariant). -/
theorem caseLib_analysis (env : Env) (i : FormInput) (s : SessionState) :
    (analysisBlock env i s).state.case_library = s.case_library := by
  unfold analysisBlock
  repeat' split <;> simp

theorem caseLib_styleSelect (k : Nat) (s : SessionState) :
    (styleSelectBlock k s).state.case_library = s.case_library := by
  unfold styleSelectBlock
  split <;> simp

theorem caseLib_display (env : Env) (i : FormInput) (fb : String) (r p : Bool)
    (s : SessionState) :
    (displayBlock env i fb r p s).state.case_library = s.case_library := by
  unfold displayBlock
  dsimp only
  repeat' split
  all_goals rfl

theorem caseLib_libraryBlock (s : SessionState) :
    (libraryBlock s).state.case_library = s.case_library := by
  unfold libraryBlock
  split <;> simp

theorem caseLib_exportAll (b : Bool) (s : SessionState) :
    (exportAllBlock b s).state.case_library = s.case_library := by
  unfold exportAllBlock
  dsimp only
  repeat' split
  all_goals rfl

theorem caseLib_gen (env : Env) (i : FormInput) (g : Bool) (s : SessionState) :
    ∃ tl, (genBlock env i g s).state.case_library = s.case_library ++ tl ∧ tl.length ≤ 1 := by
  unfold genBlock
  cases hs : s.selected_style with
  | none => exact ⟨[], by simp⟩
  | some style =>
    dsimp only
    by_cases hg : (!style.isEmpty && g) = true
    · rw [if_pos hg]
      cases hl : env.llm (enhanced_prompt i style (metricsContext s.detailed_metrics)
          s.campaign_timeline s.web_context) with
      | error e => exact ⟨[], by simp⟩
      | ok t =>
        exact ⟨[⟨i.project_title, style, pyStrip t, s.detailed_metrics, env.now⟩], by simp⟩
    · rw [if_neg hg]
      exact ⟨[], by simp⟩

/-- Sequencing with a library-preserving section preserves the library. -/
theorem andThen_caseLib (r : RunOut) (f : SessionState → RunOut)
    (hf : ∀ s, (f s).state.case_library = s.case_library) :
    (andThen r f).state.case_library = r.state.case_library := by
  unfold andThen
  split <;> simp [hf]

/-- Sequencing with a section that appends at most one entry appends at most
one entry. -/
theorem andThen_caseLib_append (r : RunOut) (f : SessionState → RunOut)
    (hf : ∀ s, ∃ tl, (f s).state.case_library = s.case_library ++ tl ∧ tl.length ≤ 1) :
    ∃ tl, (andThen r f).state.case_library = r.state.case_library ++ tl ∧ tl.length ≤ 1 := by
  unfold andThen
  split
  · exact ⟨[], by simp⟩
  · simpa using hf _

/-! The claims. -/

/-- C1: the session style list assigned after the recommendation stage is
`styles_found[:3] + ['Comprehensive Data-Driven Report']`, so for every
completion-service reply — including one from which zero styles parse — it has
between 1 and 4 elements and its last element is the synthetic default
option. -/
theorem C1_style_list_bounded_with_default (recText : String) :
    1 ≤ (assignedStyles recText).length
    ∧ (assignedStyles recText).length ≤ 4
    ∧ (assignedStyles recText).getLast? = some "Comprehensive Data-Driven Report" := by
  refine ⟨?_, ?_, ?_⟩
  · simp only [assignedStyles, List.length_append, List.length_take, List.length_cons,
      List.length_nil]
    omega
  · simp only [assignedStyles, List.length_append, List.length_take, List.length_cons,
      List.length_nil]
    omega
  · unfold assignedStyles
    rw [List.getLast?_concat]

/-- C2 (amended): submitting the form with an empty client name or an empty
campaign name blocks the pipeline — the session is untouched and no external
call is issued — but, contrary to the original claim, no blocking validation
message is surfaced either: the analysis step produces no effect at all
(line 150 has no `else` branch). -/
theorem C2_empty_required_field_blocks_silently (env : Env) (i : FormInput)
    (s : SessionState) (h : i.client_name = "" ∨ i.campaign_name = "") :
    analysisBlock env i s = ⟨s, [], none⟩ := by
  have he : ("" : String).isEmpty = true := rfl
  unfold analysisBlock
  rcases h with h | h <;> simp [h, he]

/-- C2 witness: instance of the amended theorem at a concrete submission with
an empty campaign name. -/
theorem C2_witness :
    analysisBlock envOk { formFull with campaign_name := "" } initialState
      = ⟨initialState, [], none⟩ :=
  C2_empty_required_field_blocks_silently envOk { formFull with campaign_name := "" }
    initialState (Or.inr rfl)

/-- C2 counterexample: the original claim asserts that the missing required
input "is surfaced immediately as a blocking validation message".  At the
concrete submission `formC2` (form submitted, client name empty) the analysis
step produces the empty effect trace: no search or completion call, but also
no message of any kind is displayed. -/
theorem C2_counterexample :
    analysisBlock envOk formC2 initialState = ⟨initialState, [], none⟩ := rfl

/-- C3: the snippet fetch never propagates a failure of the underlying HTTP
search call to its caller: whenever the transport / JSON-parse oracle raises,
`fetch_campaign_metrics` returns the defined empty value — the empty result
dict and the empty snippet text — (after an `st.error` banner), so the
pipeline continues with "no data". -/
theorem C3_fetch_swallows_failures (search : String → Nat → Except String SearchData)
    (q : String) (n : Nat) (e : String) (h : search q n = .error e) :
    fetch_campaign_metrics search q n
      = (.err, "", [.searchCall q n, .errorMsg ("Search error: " ++ e)]) := by
  unfold fetch_campaign_metrics
  rw [h]

/-- C3 witness: instance of the theorem for a concrete timed-out transport. -/
theorem C3_witness :
    fetch_campaign_metrics (fun _ _ => .error "timeout") "acme launch" 10
      = (.err, "", [.searchCall "acme launch" 10,
                    .errorMsg ("Search error: " ++ "timeout")]) :=
  C3_fetch_swallows_failures (fun _ _ => .error "timeout") "acme launch" 10 "timeout" rfl

/-- C4 (amended): a selected focus metric leads to search queries only when
its lowercased name occurs as a substring of one of the five fixed category
names of `metric_search_templates`; any such matching selection contributes at
least one search call to the metric stage.  Non-matching selections (five of
the eight multiselect options, e.g. 'Sales Revenue') match no category and are
silently skipped — see the counterexample. -/
theorem C4_matching_metric_is_searched (env : Env) (tms : List String)
    (c n tm category : String) (qs : List String)
    (hmem : tm ∈ tms) (hcat : (category, qs) ∈ metric_search_templates c n)
    (hsub : strIn (pyLower tm) (pyLower category) = true) :
    ∃ q num, Effect.searchCall q num ∈ (metricStage env tms c n).2 := by
  have hon : metricCategoryEnabled tms category = true := by
    unfold metricCategoryEnabled
    have hany : tms.any (fun tm2 => strIn (pyLower tm2) (pyLower category)) = true :=
      List.any_eq_true.mpr ⟨tm, hmem, hsub⟩
    simp [hany]
  have hne : qs ≠ [] := by
    simp only [metric_search_templates, List.mem_cons, List.not_mem_nil, or_false] at hcat
    rcases hcat with h | h | h | h | h <;>
      · injection h with h1 h2
        subst h2
        simp
  obtain ⟨q, qs0, rfl⟩ := List.exists_cons_of_ne_nil hne
  exact ⟨q, 8, searchCall_mem_metricStageList env tms category q qs0
    (metric_search_templates c n) hcat hon⟩

/-- C4 witness: selecting 'Market Share' (which is a substring of the
'Market Share' category) does produce a search call. -/
theorem C4_witness :
    ∃ q num, Effect.searchCall q num ∈ (metricStage envOk ["Market Share"] "Acme" "Launch").2 :=
  C4_matching_metric_is_searched envOk ["Market Share"] "Acme" "Launch" "Market Share"
    "Market Share"
    [ "\"Acme\" \"Launch\" market share gain",
      "\"Acme\" market position after \"Launch\"",
      "\"Acme\" competitive advantage \"Launch\"" ]
    (by decide) (by decide) (by decide)

/-- C4 counterexample: the original claim says every selected metric name gets
at least one search query and one extraction.  Selecting only 'Sales Revenue'
(a legal multiselect option) disables all five categories — 'sales revenue' is
a substring of none of them, not even of 'Sales Impact' — so the metric stage
performs zero searches and zero extractions: its result and effect trace are
both empty, even with a search provider that returns data. -/
theorem C4_counterexample :
    metricStage envOk ["Sales Revenue"] "Acme" "Launch" = ([], []) := by decide

/-- C5: the refine ("regenerate with feedback") operation on an existing
document with non-empty feedback replaces the session's current document —
`case_study` holds exactly the stripped revised output — and appends nothing
to the case library; the run then restarts (`st.rerun`). -/
theorem C5_refine_replaces_document (env : Env) (i : FormInput) (fb : String)
    (pdfC : Bool) (s : SessionState) (t : String)
    (hcs : s.case_study.isEmpty = false) (hfb : fb.isEmpty = false)
    (hllm : env.llm (revision_prompt fb s.case_study (s.detailed_metrics.validationD ""))
      = .ok t) :
    (displayBlock env i fb true pdfC s).state.case_study = pyStrip t
    ∧ (displayBlock env i fb true pdfC s).state.case_library = s.case_library
    ∧ (displayBlock env i fb true pdfC s).exc = some "RerunException" := by
  unfold displayBlock
  dsimp only
  simp [hcs, hfb, hllm]

/-- C5 witness: instance of the theorem for a concrete session and stub. -/
theorem C5_witness :
    (displayBlock envOk formFull "make it shorter" true false stateSel).state.case_study
        = pyStrip "OK TEXT"
    ∧ (displayBlock envOk formFull "make it shorter" true false stateSel).state.case_library
        = stateSel.case_library
    ∧ (displayBlock envOk formFull "make it shorter" true false stateSel).exc
        = some "RerunException" :=
  C5_refine_replaces_document envOk formFull "make it shorter" false stateSel "OK TEXT"
    rfl rfl rfl

/-- C6: the in-memory case library is append-only within a session: a full
script run never removes or edits existing entries (the previous library is
always a prefix of the new one, with at most one appended entry), and a
successful generation appends exactly one entry. -/
theorem C6_library_append_only :
    (∀ env u s, ∃ tl, (scriptRun env u s).state.case_library = s.case_library ++ tl
        ∧ tl.length ≤ 1)
    ∧ (∀ env (i : FormInput) (s : SessionState) style t,
        s.selected_style = some style → style.isEmpty = false →
        env.llm (enhanced_prompt i style (metricsContext s.detailed_metrics)
            s.campaign_timeline s.web_context) = .ok t →
        (genBlock env i true s).state.case_library
          = s.case_library
              ++ [⟨i.project_title, style, pyStrip t, s.detailed_metrics, env.now⟩]) := by
  constructor
  · intro env u s
    unfold scriptRun
    rw [andThen_caseLib _ _ (fun x => caseLib_exportAll u.exportClicked x),
        andThen_caseLib _ _ caseLib_libraryBlock,
        andThen_caseLib _ _
          (fun x => caseLib_display env u.form u.feedback u.refineClicked u.pdfClicked x)]
    obtain ⟨tl, htl, hlen⟩ := andThen_caseLib_append
      (andThen (analysisBlock env u.form s) (styleSelectBlock u.radioIndex))
      (genBlock env u.form u.genClicked)
      (fun x => caseLib_gen env u.form u.genClicked x)
    refine ⟨tl, ?_, hlen⟩
    rw [htl, andThen_caseLib _ _ (fun x => caseLib_styleSelect u.radioIndex x),
        caseLib_analysis]
  · intro env i s style t hsty hne hllm
    simp [genBlock, hsty, hne, hllm]

/-- C6 witness: both parts instantiated — a concrete full run appends at most
one entry, and a concrete successful generation appends exactly its entry. -/
theorem C6_witness :
    (∃ tl, (scriptRun envOk uiNothing initialState).state.case_library
        = initialState.case_library ++ tl ∧ tl.length ≤ 1)
    ∧ (genBlock envOk formFull true stateSel).state.case_library
        = stateSel.case_library
            ++ [⟨formFull.project_title, "Narrative", pyStrip "OK TEXT",
                  stateSel.detailed_metrics, envOk.now⟩] :=
  ⟨C6_library_append_only.1 envOk uiNothing initialState,
   C6_library_append_only.2 envOk formFull stateSel "Narrative" "OK TEXT" rfl rfl rfl⟩

/-- C7 (amended): the export filenames are the raw project title with the
fixed suffixes `_case_study.md` / `_case_study.pdf` appended — whitespace in
the title is NOT replaced (see the counterexample) — and the downloads carry
the `text/markdown` and `application/pdf` types. -/
theorem C7_export_filenames (env : Env) (i : FormInput) (fb : String)
    (s : SessionState) (h : s.case_study.isEmpty = false) :
    Effect.download "📝 Download Markdown" s.case_study (mdFileName i.project_title)
        "text/markdown" ∈ (displayBlock env i fb false true s).effects
    ∧ Effect.download "💾 Download PDF Report"
        (env.pisa (pdfHtml env.md2html s.case_study s.detailed_metrics)).2
        (pdfFileName i.project_title) "application/pdf"
        ∈ (displayBlock env i fb false true s).effects
    ∧ (∀ t : String, (mdFileName t).data = t.data ++ "_case_study.md".data
        ∧ (pdfFileName t).data = t.data ++ "_case_study.pdf".data) := by
  refine ⟨?_, ?_, fun t => ⟨?_, ?_⟩⟩
  · unfold displayBlock
    dsimp only
    simp [h]
  · unfold displayBlock create_enhanced_pdf
    dsimp only
    simp [h]
  · simp [mdFileName]
  · simp [pdfFileName]

/-- C7 witness: instance of the amended theorem at a concrete session. -/
theorem C7_witness :
    Effect.download "📝 Download Markdown" stateDoc.case_study
        (mdFileName formFull.project_title) "text/markdown"
        ∈ (displayBlock envOk formFull "" false true stateDoc).effects
    ∧ Effect.download "💾 Download PDF Report"
        (envOk.pisa (pdfHtml envOk.md2html stateDoc.case_study stateDoc.detailed_metrics)).2
        (pdfFileName formFull.project_title) "application/pdf"
        ∈ (displayBlock envOk formFull "" false true stateDoc).effects
    ∧ (∀ t : String, (mdFileName t).data = t.data ++ "_case_study.md".data
        ∧ (pdfFileName t).data = t.data ++ "_case_study.pdf".data) :=
  C7_export_filenames envOk formFull "" stateDoc rfl

/-- C7 counterexample: the original claim says whitespace characters in the
project title are replaced.  For the title 'My Project' both filenames keep
the space verbatim. -/
theorem C7_counterexample :
    mdFileName "My Project" = "My Project_case_study.md"
    ∧ ' ' ∈ (mdFileName "My Project").data
    ∧ pdfFileName "My Project" = "My Project_case_study.pdf"
    ∧ ' ' ∈ (pdfFileName "My Project").data := by decide

/-- C8 (amended): the status reported by the PDF conversion step is ignored:
whatever `pisa.CreatePDF` reports, the (possibly empty or partial) buffer is
offered for download, and no "PDF generation failed" — indeed no error banner
at all — is displayed by this section. -/
theorem C8_pdf_failure_not_surfaced (env : Env) (i : FormInput) (fb : String)
    (s : SessionState) (h : s.case_study.isEmpty = false) :
    Effect.download "💾 Download PDF Report"
        (env.pisa (pdfHtml env.md2html s.case_study s.detailed_metrics)).2
        (pdfFileName i.project_title) "application/pdf"
        ∈ (displayBlock env i fb false true s).effects
    ∧ ∀ m, Effect.errorMsg m ∉ (displayBlock env i fb false true s).effects := by
  constructor
  · unfold displayBlock create_enhanced_pdf
    dsimp only
    simp [h]
  · intro m
    unfold displayBlock create_enhanced_pdf
    dsimp only
    simp [h]

/-- C8 witness: instance of the amended theorem in the environment whose PDF
converter reports failure. -/
theorem C8_witness :
    Effect.download "💾 Download PDF Report"
        (envFail.pisa (pdfHtml envFail.md2html stateDoc.case_study stateDoc.detailed_metrics)).2
        (pdfFileName formFull.project_title) "application/pdf"
        ∈ (displayBlock envFail formFull "" false true stateDoc).effects
    ∧ ∀ m, Effect.errorMsg m ∉ (displayBlock envFail formFull "" false true stateDoc).effects :=
  C8_pdf_failure_not_surfaced envFail formFull "" stateDoc rfl

/-- C8 counterexample: the original claim says a reported rendering failure is
surfaced as a "PDF generation failed" error instead of offering the buffer.
In `envFail` the converter reports `err = true`, yet the (partial) buffer IS
offered for download and no error banner appears in the run's effects. -/
theorem C8_counterexample :
    (envFail.pisa (pdfHtml envFail.md2html stateDoc.case_study stateDoc.detailed_metrics)).1
      = true
    ∧ Effect.download "💾 Download PDF Report" "PARTIAL"
        (pdfFileName formFull.project_title) "application/pdf"
        ∈ (displayBlock envFail formFull "" false true stateDoc).effects
    ∧ (displayBlock envFail formFull "" false true stateDoc).effects.all
        (fun e => !e.isErrMsg) = true := by decide

/-- C9: case-study generation is deterministic in its declared inputs: its
produced document text and its effect trace depend only on the completion
oracle, the form fields, the selected style and the session's metrics,
timeline and web context — not on the clock (`env.now`), the search or PDF
oracles, or any other session field.  Hence two invocations with identical
inputs against the same deterministic stub produce identical text. -/
theorem C9_generation_deterministic (e1 e2 : Env) (i : FormInput) (g : Bool)
    (s1 s2 : SessionState)
    (hllm : e1.llm = e2.llm)
    (hsty : s1.selected_style = s2.selected_style)
    (hdm : s1.detailed_metrics = s2.detailed_metrics)
    (htl : s1.campaign_timeline = s2.campaign_timeline)
    (hwc : s1.web_context = s2.web_context)
    (hcs : s1.case_study = s2.case_study) :
    (genBlock e1 i g s1).state.case_study = (genBlock e2 i g s2).state.case_study
    ∧ (genBlock e1 i g s1).effects = (genBlock e2 i g s2).effects := by
  unfold genBlock
  rw [hsty, hdm, htl, hwc, hllm]
  cases hs2 : s2.selected_style with
  | none => exact ⟨hcs, rfl⟩
  | some style =>
    dsimp only
    by_cases hg : (!style.isEmpty && g) = true
    · rw [if_pos hg, if_pos hg]
      cases hl : e2.llm (enhanced_prompt i style (metricsContext s2.detailed_metrics)
          s2.campaign_timeline s2.web_context) with
      | error e => exact ⟨hcs, rfl⟩
      | ok t => exact ⟨rfl, rfl⟩
    · rw [if_neg hg, if_neg hg]
      exact ⟨hcs, rfl⟩

/-- C9 witness: two environments sharing only the completion stub — different
clocks, search providers and renderers — produce identical document text and
effects from the same session. -/
theorem C9_witness :
    (genBlock envOk formFull true stateSel).state.case_study
        = (genBlock envOk2 formFull true stateSel).state.case_study
    ∧ (genBlock envOk formFull true stateSel).effects
        = (genBlock envOk2 formFull true stateSel).effects :=
  C9_generation_deterministic envOk envOk2 formFull true stateSel stateSel
    rfl rfl rfl rfl rfl rfl

/-- C10: when the completion service raises during generation or during the
refine operation, the session state is completely unchanged — `case_study`
keeps its previous value and `case_library` gains no entry — and the exception
propagates (is recorded in `exc`); by contrast the metric-extraction helper
swallows its completion failure and substitutes the placeholder string. -/
theorem C10_llm_failure_leaves_state_intact (env : Env) (i : FormInput)
    (s : SessionState) (style fb e1 e2 : String)
    (hsty : s.selected_style = some style) (hne : style.isEmpty = false)
    (hgen : env.llm (enhanced_prompt i style (metricsContext s.detailed_metrics)
        s.campaign_timeline s.web_context) = .error e1)
    (hcs : s.case_study.isEmpty = false) (hfb : fb.isEmpty = false)
    (hrev : env.llm (revision_prompt fb s.case_study (s.detailed_metrics.validationD ""))
        = .error e2) :
    (genBlock env i true s).state = s
    ∧ (genBlock env i true s).exc = some e1
    ∧ (displayBlock env i fb true false s).state = s
    ∧ (displayBlock env i fb true false s).exc = some e2
    ∧ (∀ (llm2 : String → Except String String) (t mt e3 : String),
        llm2 (extraction_prompt t mt) = .error e3 →
        (extract_numeric_metrics llm2 t mt).1 = "No specific metrics found") := by
  refine ⟨?_, ?_, ?_, ?_, ?_⟩
  · simp [genBlock, hsty, hne, hgen]
  · simp [genBlock, hsty, hne, hgen]
  · unfold displayBlock
    dsimp only
    simp [hcs, hfb, hrev]
  · unfold displayBlock
    dsimp only
    simp [hcs, hfb, hrev]
  · intro llm2 t mt e3 h3
    simp [extract_numeric_metrics, h3]

/-- C10 witness: instance of the theorem in the failing environment. -/
theorem C10_witness :
    (genBlock envFail formFull true stateSel).state = stateSel
    ∧ (genBlock envFail formFull true stateSel).exc = some "llm down"
    ∧ (displayBlock envFail formFull "shorter" true false stateSel).state = stateSel
    ∧ (displayBlock envFail formFull "shorter" true false stateSel).exc = some "llm down"
    ∧ (∀ (llm2 : String → Except String String) (t mt e3 : String),
        llm2 (extraction_prompt t mt) = .error e3 →
        (extract_numeric_metrics llm2 t mt).1 = "No specific metrics found") :=
  C10_llm_failure_leaves_state_intact envFail formFull stateSel "Narrative" "shorter"
    "llm down" "llm down" rfl rfl rfl rfl rfl rfl

end CSG
